import Mathlib

/-!
Verification of the remote path browser of `rsync-gui.py` (class
`RemoteBrowserDialog`).  The dialog's navigation logic is embedded shallowly:

* paramiko's remote I/O (`client.connect`, `echo $HOME`, `open_sftp`,
  `chdir`+`listdir`, `stat`) is modelled by an oracle `RemoteEnv` whose fields
  give, for each remote call, either its result or the exception it raises;
* the dialog's mutable fields (`current_path`, the `fileList` contents, the
  path label, the breadcrumb buttons, `selectedPath`, and whether `accept()`
  has been called) form the record `NavState`;
* each navigation method of the source (`load_directory`, `enter_directory`,
  `go_up_directory`, `jump_to_path`, `update_breadcrumbs`, `connect_ssh` +
  `__init__`) becomes a pure function on `NavState`;
* the Python string/path primitives the source uses (`str.rstrip("/")`,
  `str.strip("/")`, `str.split("/")`, `os.path.join`, `os.path.dirname`,
  `sorted` on strings, `stat.S_ISDIR`) are reimplemented faithfully on
  `List Char` / `String`;
* handle lifetimes (`self.client` / `self.sftp`) are tracked by a separate
  event-log model used for the teardown claims.
-/

/-- Python `str.rstrip("/")` on a character list: drop all trailing slashes. -/
def rstripSlashL (cs : List Char) : List Char :=
  (cs.reverse.dropWhile (· == '/')).reverse

/-- Python `s.rstrip("/")`. -/
def rstripSlash (s : String) : String := ⟨rstripSlashL s.data⟩

/-- Python `str.lstrip("/")` on a character list: drop all leading slashes. -/
def lstripSlashL (cs : List Char) : List Char := cs.dropWhile (· == '/')

/-- Python `s.strip("/")`: slashes dropped from both ends. -/
def stripSlash (s : String) : String := ⟨rstripSlashL (lstripSlashL s.data)⟩

/-- Python `s.split("/")` on a character list.  As in Python, splitting the
empty string yields `[""]` and adjacent separators yield empty fields. -/
def splitSlashL : List Char → List (List Char)
  | [] => [[]]
  | c :: cs =>
    if c == '/' then [] :: splitSlashL cs
    else
      match splitSlashL cs with
      | h :: t => (c :: h) :: t
      | [] => [[c]]

/-- Python `s.split("/")`. -/
def splitSlash (s : String) : List String := (splitSlashL s.data).map String.mk

/-- Python `s.startswith("/")`. -/
def startsWithSlash (s : String) : Bool :=
  match s.data with
  | c :: _ => c == '/'
  | [] => false

/-- Python `s.endswith("/")`. -/
def endsWithSlash (s : String) : Bool :=
  match s.data.getLast? with
  | some c => c == '/'
  | none => false

/-- `os.path.join(a, b)` for POSIX paths, exactly as `posixpath.join` computes
it for two arguments: an absolute `b` wins; otherwise `b` is appended,
inserting `"/"` only when `a` is non-empty and does not already end in one. -/
def pathJoin (a b : String) : String :=
  if startsWithSlash b then b
  else if a = "" ∨ endsWithSlash a then a ++ b
  else a ++ "/" ++ b

/-- `os.path.dirname` for POSIX paths on a character list, following
`posixpath.split`: keep everything up to and including the last slash, then
strip trailing slashes unless the head consists of slashes only. -/
def dirnameL (p : List Char) : List Char :=
  let head := (p.reverse.dropWhile (· != '/')).reverse
  if head ≠ [] ∧ head.any (· != '/') then rstripSlashL head else head

/-- `os.path.dirname(p)` for POSIX paths. -/
def dirname (s : String) : String := ⟨dirnameL s.data⟩

/-- Lexicographic comparison of character lists by Unicode code point, the
order Python uses to compare `str` values (so `sorted` on a list of names is
ascending in this order; it is case-sensitive since code points differ). -/
def lexLeB : List Char → List Char → Bool
  | [], _ => true
  | _ :: _, [] => false
  | a :: as, b :: bs =>
    if a.toNat < b.toNat then true
    else if b.toNat < a.toNat then false
    else lexLeB as bs

/-- Python's `<=` on strings: code-point lexicographic order. -/
def strLe (a b : String) : Prop := lexLeB a.data b.data = true

instance : DecidableRel strLe := fun a b =>
  inferInstanceAs (Decidable (lexLeB a.data b.data = true))

/-- Python `sorted` on a list of strings: the permutation of the input that is
ascending in code-point order.  Realised by insertion sort, which for a total
order produces exactly that list. -/
def pySorted (l : List String) : List String := List.insertionSort strLe l

/-- Python `stat.S_ISDIR(m)`, literally `(m & 0o170000) == 0o040000`. -/
def S_ISDIR (m : Nat) : Bool := m &&& 61440 == 16384

/-- Oracle for the remote side of one dialog session.  Each field is the
outcome of the corresponding paramiko call in the source: `connectErr` is the
exception text of `client.connect` (or `none` on success), `homeDir` the
stripped stdout of `echo $HOME`, `sftpErr` the exception of
`client.open_sftp()`, `listResult p` the outcome of
`sftp.chdir(p); sftp.listdir()`, and `statResult p` the outcome of
`sftp.stat(p)` (its `st_mode` on success). -/
structure RemoteEnv where
  connectErr : Option String
  homeDir : String
  sftpErr : Option String
  listResult : String → Except String (List String)
  statResult : String → Except String Nat

/-- The navigation fields of `RemoteBrowserDialog`: `current_path`, the
contents of the `fileList` widget, the text of the path label, the breadcrumb
buttons as (label, target-path) pairs, `selectedPath`, and whether
`self.accept()` has been called. -/
structure NavState where
  current_path : String
  listing : List String
  pathLabel : String
  breadcrumbs : List (String × String)
  selectedPath : Option String
  accepted : Bool

/-- Breadcrumb construction loop of `update_breadcrumbs`: starting from
`path_so_far = "/"`, each part is joined onto the running path and becomes one
button whose click target is the path so far. -/
def breadcrumbAux : String → List String → List (String × String)
  | _, [] => []
  | sofar, part :: rest =>
    (part, pathJoin sofar part) :: breadcrumbAux (pathJoin sofar part) rest

/-- `update_breadcrumbs`: buttons for `current_path.strip("/").split("/")`,
each mapping to the absolute path accumulated so far. -/
def breadcrumbsOf (p : String) : List (String × String) :=
  breadcrumbAux "/" (splitSlash (stripSlash p))

/-- `load_directory`: clear the list, refresh the label and breadcrumbs, then
`chdir` to `current_path` and list it, adding the sorted entries; any
exception from the remote calls is caught and rendered as one synthetic
list entry (the `f"⛔ Error: {e}"` item of the source). -/
def load_directory (env : RemoteEnv) (st : NavState) : NavState :=
  let st1 : NavState :=
    { st with
        listing := [],
        pathLabel := "Current: " ++ st.current_path,
        breadcrumbs := breadcrumbsOf st.current_path }
  match env.listResult st.current_path with
  | Except.ok items => { st1 with listing := pySorted items }
  | Except.error e => { st1 with listing := st1.listing ++ ["⛔ Error: " ++ e] }

/-- `enter_directory(item)`: join the item text onto `current_path`, `stat`
the result; a directory is entered via `load_directory`, anything else (or a
failing `stat`, whose error text is appended to the list) becomes the
committed selection followed by `accept()`. -/
def enter_directory (env : RemoteEnv) (st : NavState) (name : String) : NavState :=
  match env.statResult (pathJoin st.current_path name) with
  | Except.ok mode =>
    if S_ISDIR mode then
      load_directory env { st with current_path := pathJoin st.current_path name }
    else
      { st with selectedPath := some (pathJoin st.current_path name), accepted := true }
  | Except.error e =>
    { st with
        listing := st.listing ++
          ["❌ Error accessing " ++ pathJoin st.current_path name ++ ": " ++ e],
        selectedPath := some (pathJoin st.current_path name),
        accepted := true }

/-- `go_up_directory`: `parent = os.path.dirname(current_path.rstrip("/"))`;
navigate there only `if parent and parent != current_path` (a falsy, i.e.
empty, parent also blocks the move). -/
def go_up_directory (env : RemoteEnv) (st : NavState) : NavState :=
  let parent := dirname (rstripSlash st.current_path)
  if parent ≠ "" ∧ parent ≠ st.current_path then
    load_directory env { st with current_path := parent }
  else st

/-- `jump_to_path(path)` (breadcrumb click): set `current_path` and reload. -/
def jump_to_path (env : RemoteEnv) (st : NavState) (p : String) : NavState :=
  load_directory env { st with current_path := p }

/-- Dialog fields as first initialised by `__init__` before any remote call. -/
def initState (p : String) : NavState :=
  { current_path := p,
    listing := [],
    pathLabel := "Current: " ++ p,
    breadcrumbs := [],
    selectedPath := none,
    accepted := false }

/-- `__init__` + `connect_ssh` + the first `load_directory`: connect (no
try/except in the source, so a failure is an uncaught exception, modelled as
`Except.error`), resolve a literal `"~"` start path through `echo $HOME`,
open the SFTP channel (again uncaught on failure), then list the start
directory. -/
def openDialog (env : RemoteEnv) (start_path : String) : Except String NavState :=
  match env.connectErr with
  | some e => Except.error e
  | none =>
    let cp := if start_path = "~" then env.homeDir else start_path
    match env.sftpErr with
    | some e => Except.error e
    | none => Except.ok (load_directory env (initState cp))

/-- True when an operation modelled as `Except` ended in an exception that the
dialog code did not catch, i.e. one that reaches the caller. -/
def raisesUncaught {α : Type} : Except String α → Bool
  | Except.error _ => true
  | Except.ok _ => false

/-- Event log of the two remote handles of one dialog session: whether
`client.connect` succeeded, whether `client.close()` ran, whether `open_sftp`
succeeded, whether `sftp.close()` ran, and whether any SFTP operation was
issued after the transport had been closed. -/
structure HandleLog where
  clientConnected : Bool := false
  clientClosed : Bool := false
  sftpOpened : Bool := false
  sftpClosed : Bool := false
  sftpOpAfterClientClosed : Bool := false

/-- The ways the user can leave the dialog: the "Use This Path" button or a
committing double-click (`accept()`), rejection (Escape), or closing the
window.  Under Qt 6.3+ `QDialog.done` itself calls `close()`, so all three
deliver the `closeEvent` teardown. -/
inductive ExitPath where
  | confirm
  | cancel
  | windowClose

/-- Handle effects of `connect_ssh`: `connect` either raises (nothing opened)
or connects the transport; `open_sftp` then either raises (transport left
connected!) or opens the file channel. -/
def connect_sshT (env : RemoteEnv) : Except String Unit × HandleLog :=
  match env.connectErr with
  | some e => (Except.error e, {})
  | none =>
    match env.sftpErr with
    | some e => (Except.error e, { clientConnected := true })
    | none => (Except.ok (), { clientConnected := true, sftpOpened := true })

/-- One SFTP call during browsing (`chdir`/`listdir`/`stat`); it is flagged if
the transport has already been closed. -/
def useSftp (log : HandleLog) : HandleLog :=
  { log with sftpOpAfterClientClosed := log.sftpOpAfterClientClosed || log.clientClosed }

/-- `n` SFTP calls in sequence. -/
def useSftpN : Nat → HandleLog → HandleLog
  | 0, log => log
  | n + 1, log => useSftpN n (useSftp log)

/-- `closeEvent`: `if self.sftp: self.sftp.close()` then
`if self.client: self.client.close()` — the file channel is closed first,
while the transport is still open. -/
def closeEventT (log : HandleLog) : HandleLog :=
  let log1 :=
    if log.sftpOpened then
      { log with
          sftpClosed := true,
          sftpOpAfterClientClosed := log.sftpOpAfterClientClosed || log.clientClosed }
    else log
  if log1.clientConnected then { log1 with clientClosed := true } else log1

/-- Handle history of one whole dialog lifetime: `connect_ssh` during
`__init__` (if it raises, the constructor aborts and no teardown ever runs),
then `navOps` SFTP calls while browsing, then the exit.  Every interactive
exit (confirm / cancel / window close) delivers `closeEvent` (Qt 6.3+
`QDialog.done` calls `close()`). -/
def sessionRun (env : RemoteEnv) (navOps : Nat) (ep : ExitPath) : HandleLog :=
  match connect_sshT env with
  | (Except.error _, log) => log
  | (Except.ok _, log) =>
    match ep with
    | ExitPath.confirm => closeEventT (useSftpN navOps log)
    | ExitPath.cancel => closeEventT (useSftpN navOps log)
    | ExitPath.windowClose => closeEventT (useSftpN navOps log)

/-- Both acquired handles were released. -/
def handlesReleased (log : HandleLog) : Bool :=
  (!log.clientConnected || log.clientClosed) && (!log.sftpOpened || log.sftpClosed)

/-- Oracle for a session whose `client.connect` raises an authentication
error; the listing/stat oracles are irrelevant on this path. -/
def envConnFail : RemoteEnv :=
  { connectErr := some "Authentication failed.",
    homeDir := "/home/u",
    sftpErr := none,
    listResult := fun _ => Except.error "unreachable",
    statResult := fun _ => Except.error "unreachable" }

/-- Oracle for a session whose `client.connect` succeeds but whose
`client.open_sftp()` raises. -/
def envSftpFail : RemoteEnv :=
  { connectErr := none,
    homeDir := "/home/u",
    sftpErr := some "EOF during negotiation",
    listResult := fun _ => Except.error "unreachable",
    statResult := fun _ => Except.error "unreachable" }

/-- Oracle for a fully successful session. -/
def envHappy : RemoteEnv :=
  { connectErr := none,
    homeDir := "/home/u",
    sftpErr := none,
    listResult := fun _ => Except.ok [],
    statResult := fun _ => Except.error "No such file" }

/-- Oracle with a regular file `f` in the root directory: listing `/` shows
`f`, and `stat("/f")` reports mode `0o100644`. -/
def envRootFile : RemoteEnv :=
  { connectErr := none,
    homeDir := "/home/u",
    sftpErr := none,
    listResult := fun p => if p = "/" then Except.ok ["f"] else Except.error "No such file",
    statResult := fun p => if p = "/f" then Except.ok 33188 else Except.error "No such file" }

/-- Oracle with directory `/home/u` containing `notes.txt` (a regular file,
mode `0o100644`) and `docs` (a directory, mode `0o40755`). -/
def envHomeFiles : RemoteEnv :=
  { connectErr := none,
    homeDir := "/home/u",
    sftpErr := none,
    listResult := fun p =>
      if p = "/home/u" then Except.ok ["notes.txt", "docs"]
      else if p = "/home/u/docs" then Except.ok []
      else Except.error "No such file",
    statResult := fun p =>
      if p = "/home/u/notes.txt" then Except.ok 33188
      else if p = "/home/u/docs" then Except.ok 16877
      else Except.error "No such file" }

/-- Oracle on which every `stat` raises a permission error. -/
def envStatFail : RemoteEnv :=
  { connectErr := none,
    homeDir := "/home/u",
    sftpErr := none,
    listResult := fun _ => Except.ok [],
    statResult := fun _ => Except.error "Permission denied" }

/-- Oracle on which every listing raises a permission error. -/
def envListFail : RemoteEnv :=
  { connectErr := none,
    homeDir := "/home/u",
    sftpErr := none,
    listResult := fun _ => Except.error "Permission denied",
    statResult := fun _ => Except.error "Permission denied" }

/-- Oracle for the breadcrumb scenario: `/a/b` contains `y` and `x`. -/
def envCrumb : RemoteEnv :=
  { connectErr := none,
    homeDir := "/home/u",
    sftpErr := none,
    listResult := fun p => if p = "/a/b" then Except.ok ["y", "x"] else Except.ok [],
    statResult := fun _ => Except.error "No such file" }

/-- Oracle for the home-resolution scenario of the spec: home is `/home/u`
with entries `docs` and `bin`; listing the literal `"~"` (or anything else)
fails, so a successful listing proves the resolved path was used. -/
def envTilde : RemoteEnv :=
  { connectErr := none,
    homeDir := "/home/u",
    sftpErr := none,
    listResult := fun p =>
      if p = "/home/u" then Except.ok ["docs", "bin"]
      else Except.error "No such file or directory",
    statResult := fun _ => Except.error "No such file" }

/-- Oracle for the sorting claim: some unsorted directory content. -/
def envSortDemo : RemoteEnv :=
  { connectErr := none,
    homeDir := "/home/u",
    sftpErr := none,
    listResult := fun _ => Except.ok ["b", "Z", "a", "A"],
    statResult := fun _ => Except.error "No such file" }

/-- A browsing state at `/a/b/c` (as left by a successful listing there). -/
def stAbc : NavState :=
  { current_path := "/a/b/c",
    listing := [],
    pathLabel := "Current: /a/b/c",
    breadcrumbs := breadcrumbsOf "/a/b/c",
    selectedPath := none,
    accepted := false }

/-- A browsing state at `/home/u` with the two entries of `envHomeFiles`. -/
def stHome : NavState :=
  { current_path := "/home/u",
    listing := ["docs", "notes.txt"],
    pathLabel := "Current: /home/u",
    breadcrumbs := breadcrumbsOf "/home/u",
    selectedPath := none,
    accepted := false }

theorem lexLeB_total : ∀ as bs, lexLeB as bs = true ∨ lexLeB bs as = true
  | [], _ => Or.inl rfl
  | _ :: _, [] => Or.inr rfl
  | a :: as, b :: bs => by
    simp only [lexLeB]
    rcases Nat.lt_trichotomy a.toNat b.toNat with h | h | h
    · left; simp [h]
    · have h1 : ¬ a.toNat < b.toNat := by omega
      have h2 : ¬ b.toNat < a.toNat := by omega
      simp only [if_neg h1, if_neg h2]
      exact lexLeB_total as bs
    · right; simp [h]

theorem lexLeB_trans :
    ∀ as bs cs, lexLeB as bs = true → lexLeB bs cs = true → lexLeB as cs = true
  | [], _, _, _, _ => rfl
  | _ :: _, [], _, h, _ => by simp [lexLeB] at h
  | _ :: _, _ :: _, [], _, h => by simp [lexLeB] at h
  | a :: as, b :: bs, c :: cs, h1, h2 => by
    simp only [lexLeB] at h1 h2 ⊢
    rcases Nat.lt_trichotomy a.toNat b.toNat with hab | hab | hab
    · rcases Nat.lt_trichotomy b.toNat c.toNat with hbc | hbc | hbc
      · simp [show a.toNat < c.toNat by omega]
      · simp [show a.toNat < c.toNat by omega]
      · rw [if_neg (by omega), if_pos hbc] at h2; simp at h2
    · rw [if_neg (by omega), if_neg (by omega)] at h1
      rcases Nat.lt_trichotomy b.toNat c.toNat with hbc | hbc | hbc
      · simp [show a.toNat < c.toNat by omega]
      · rw [if_neg (by omega), if_neg (by omega)] at h2
        rw [if_neg (by omega), if_neg (by omega)]
        exact lexLeB_trans as bs cs h1 h2
      · rw [if_neg (by omega), if_pos hbc] at h2; simp at h2
    · rw [if_neg (by omega), if_pos hab] at h1; simp at h1

theorem load_directory_current_path (env : RemoteEnv) (st : NavState) :
    (load_directory env st).current_path = st.current_path := by
  unfold load_directory
  cases env.listResult st.current_path <;> rfl

theorem load_directory_selectedPath (env : RemoteEnv) (st : NavState) :
    (load_directory env st).selectedPath = st.selectedPath := by
  unfold load_directory
  cases env.listResult st.current_path <;> rfl

theorem load_directory_accepted (env : RemoteEnv) (st : NavState) :
    (load_directory env st).accepted = st.accepted := by
  unfold load_directory
  cases env.listResult st.current_path <;> rfl

theorem load_directory_breadcrumbs (env : RemoteEnv) (st : NavState) :
    (load_directory env st).breadcrumbs = breadcrumbsOf st.current_path := by
  unfold load_directory
  cases env.listResult st.current_path <;> rfl

theorem useSftp_eq (log : HandleLog) (h1 : log.clientClosed = false)
    (h2 : log.sftpOpAfterClientClosed = false) : useSftp log = log := by
  cases log
  simp_all [useSftp]

theorem useSftpN_eq (n : Nat) (log : HandleLog) (h1 : log.clientClosed = false)
    (h2 : log.sftpOpAfterClientClosed = false) : useSftpN n log = log := by
  induction n with
  | zero => rfl
  | succ n ih => rw [useSftpN, useSftp_eq log h1 h2]; exact ih

/-- Claim C1 (corrected): in the source, `connect_ssh` wraps none of
`client.connect`, `exec_command` or `open_sftp` in try/except, so an
authentication or connection failure is not converted into an inline error
state — it escapes the dialog construction as an uncaught exception and no
dialog state (with or without an inline error entry) is produced. -/
theorem connect_failure_escapes (env : RemoteEnv) (p e : String)
    (h : env.connectErr = some e) :
    openDialog env p = Except.error e ∧ raisesUncaught (openDialog env p) = true := by
  unfold openDialog
  rw [h]
  exact ⟨rfl, rfl⟩

/-- Claim C1, witness: the theorem applied to a concrete failing oracle. -/
theorem connect_failure_escapes_witness :
    openDialog envConnFail "~" = Except.error "Authentication failed." ∧
    raisesUncaught (openDialog envConnFail "~") = true :=
  connect_failure_escapes envConnFail "~" "Authentication failed." rfl

/-- Claim C1, counterexample to the claim as stated: with `client.connect`
raising, the operation yields no dialog state at all (so no "single terminal
error state shown inline in the listing area"), and the failure reaches the
caller as an uncaught exception. -/
theorem connect_failure_counterexample :
    openDialog envConnFail "~" = Except.error "Authentication failed." ∧
    raisesUncaught (openDialog envConnFail "~") = true := by
  exact ⟨rfl, rfl⟩

/-- Claim C2 (corrected): on every interactive exit (confirm, cancel, window
close — all of which deliver the `closeEvent` teardown) both handles are
released, the SFTP channel is closed before the transport, and no SFTP
operation ever happens after the transport is closed; but on the error exit
in which `open_sftp` raises after a successful `connect`, the constructor
aborts before any teardown is installed, and the connected transport is never
closed. -/
theorem teardown_on_exit (env : RemoteEnv) (n : Nat) (ep : ExitPath) :
    (env.connectErr = none → env.sftpErr = none →
      handlesReleased (sessionRun env n ep) = true ∧
      (sessionRun env n ep).sftpClosed = true ∧
      (sessionRun env n ep).clientClosed = true ∧
      (sessionRun env n ep).sftpOpAfterClientClosed = false) ∧
    (env.connectErr = none → env.sftpErr ≠ none →
      (sessionRun env n ep).clientConnected = true ∧
      (sessionRun env n ep).clientClosed = false ∧
      handlesReleased (sessionRun env n ep) = false) := by
  constructor
  · intro hc hs
    have hrun : sessionRun env n ep =
        closeEventT (useSftpN n { clientConnected := true, sftpOpened := true }) := by
      unfold sessionRun connect_sshT
      rw [hc, hs]
      cases ep <;> rfl
    rw [hrun, useSftpN_eq n _ rfl rfl]
    exact ⟨rfl, rfl, rfl, rfl⟩
  · intro hc hs
    have hrun : sessionRun env n ep = { clientConnected := true } := by
      unfold sessionRun connect_sshT
      rw [hc]
      cases hv : env.sftpErr with
      | some e => rfl
      | none => exact absurd hv hs
    rw [hrun]
    exact ⟨rfl, rfl, rfl⟩

/-- Claim C2, witness: both branches of the theorem at concrete oracles — a
fully successful session torn down by `closeEvent`, and a session whose
`open_sftp` raises. -/
theorem teardown_on_exit_witness :
    (handlesReleased (sessionRun envHappy 3 ExitPath.confirm) = true ∧
      (sessionRun envHappy 3 ExitPath.confirm).sftpClosed = true ∧
      (sessionRun envHappy 3 ExitPath.confirm).clientClosed = true ∧
      (sessionRun envHappy 3 ExitPath.confirm).sftpOpAfterClientClosed = false) ∧
    ((sessionRun envSftpFail 0 ExitPath.windowClose).clientConnected = true ∧
      (sessionRun envSftpFail 0 ExitPath.windowClose).clientClosed = false ∧
      handlesReleased (sessionRun envSftpFail 0 ExitPath.windowClose) = false) :=
  ⟨(teardown_on_exit envHappy 3 ExitPath.confirm).1 rfl rfl,
   (teardown_on_exit envSftpFail 0 ExitPath.windowClose).2 rfl (by simp [envSftpFail])⟩

/-- Claim C2, counterexample to the claim as stated: when `open_sftp` raises
after a successful `connect`, that error exit releases nothing — the
transport is connected and never closed. -/
theorem teardown_counterexample :
    (sessionRun envSftpFail 0 ExitPath.windowClose).clientConnected = true ∧
    (sessionRun envSftpFail 0 ExitPath.windowClose).clientClosed = false ∧
    handlesReleased (sessionRun envSftpFail 0 ExitPath.windowClose) = false :=
  ⟨rfl, rfl, rfl⟩

/-- Claim C3 (corrected): when `stat` succeeds on the candidate path, a
directory is entered via `load_directory` and `selectedPath` is never set,
while a non-directory is committed immediately with `accept()`; but the
committed path is `os.path.join(currentPath, name)`, which equals
`currentPath + "/" + name` only when `currentPath` is non-empty and does not
end in a separator (at the root `"/"` it is `"/" ++ name`). -/
theorem enter_on_stat_ok (env : RemoteEnv) (st : NavState) (name : String) (mode : Nat)
    (h : env.statResult (pathJoin st.current_path name) = Except.ok mode) :
    (S_ISDIR mode = true →
      enter_directory env st name =
        load_directory env { st with current_path := pathJoin st.current_path name } ∧
      (enter_directory env st name).selectedPath = st.selectedPath ∧
      (enter_directory env st name).accepted = st.accepted) ∧
    (S_ISDIR mode = false →
      (enter_directory env st name).selectedPath = some (pathJoin st.current_path name) ∧
      (enter_directory env st name).accepted = true) ∧
    (st.current_path ≠ "" → endsWithSlash st.current_path = false →
      startsWithSlash name = false →
      pathJoin st.current_path name = st.current_path ++ "/" ++ name) := by
  refine ⟨fun hdir => ?_, fun hfile => ?_, fun h1 h2 h3 => ?_⟩
  · have he : enter_directory env st name =
        load_directory env { st with current_path := pathJoin st.current_path name } := by
      unfold enter_directory
      rw [h]
      simp [hdir]
    refine ⟨he, ?_, ?_⟩
    · rw [he, load_directory_selectedPath]
    · rw [he, load_directory_accepted]
  · unfold enter_directory
    rw [h]
    simp [hfile]
  · unfold pathJoin
    rw [if_neg (by simp [h3]), if_neg (by simp [h1, h2])]

/-- Claim C3, witness: in `envHomeFiles`, entering the directory `docs` from
`/home/u` navigates without selecting, entering the file `notes.txt` commits
`/home/u/notes.txt` and accepts, and the join really is plain concatenation
with `"/"` there. -/
theorem enter_on_stat_ok_witness :
    ((enter_directory envHomeFiles stHome "docs").selectedPath = none ∧
      (enter_directory envHomeFiles stHome "docs").accepted = false) ∧
    ((enter_directory envHomeFiles stHome "notes.txt").selectedPath =
        some "/home/u/notes.txt" ∧
      (enter_directory envHomeFiles stHome "notes.txt").accepted = true) ∧
    pathJoin "/home/u" "notes.txt" = "/home/u" ++ "/" ++ "notes.txt" := by
  have hdir := (enter_on_stat_ok envHomeFiles stHome "docs" 16877 rfl).1 rfl
  have hfile := enter_on_stat_ok envHomeFiles stHome "notes.txt" 33188 rfl
  exact ⟨⟨hdir.2.1, hdir.2.2⟩, hfile.2.1 rfl, hfile.2.2 (by decide) rfl rfl⟩

/-- Claim C3, counterexample to the claim as stated: from `currentPath = "/"`
(reachable via `goUp`), entering the listed file `f` commits
`os.path.join("/", "f") = "/f"`, not `currentPath + "/" + name = "//f"`. -/
theorem enter_join_counterexample :
    (enter_directory envRootFile (load_directory envRootFile (initState "/")) "f").selectedPath =
      some "/f" ∧
    (enter_directory envRootFile (load_directory envRootFile (initState "/")) "f").accepted =
      true ∧
    "/f" ≠ "/" ++ "/" ++ "f" := by
  refine ⟨rfl, rfl, by decide⟩

/-- Claim C4 (confirmed): when `stat` raises during `enter_directory`, the
except branch still commits the candidate path as `selectedPath`, calls
`accept()`, and appends the error text to the listing — the failure does not
block the selection. -/
theorem enter_on_stat_error (env : RemoteEnv) (st : NavState) (name e : String)
    (h : env.statResult (pathJoin st.current_path name) = Except.error e) :
    (enter_directory env st name).selectedPath = some (pathJoin st.current_path name) ∧
    (enter_directory env st name).accepted = true ∧
    ("❌ Error accessing " ++ pathJoin st.current_path name ++ ": " ++ e) ∈
      (enter_directory env st name).listing := by
  unfold enter_directory
  rw [h]
  simp

/-- Claim C4, witness: with every `stat` failing, entering `secret` from
`/home/u` still commits `/home/u/secret` and surfaces the error text. -/
theorem enter_on_stat_error_witness :
    (enter_directory envStatFail stHome "secret").selectedPath = some "/home/u/secret" ∧
    (enter_directory envStatFail stHome "secret").accepted = true ∧
    ("❌ Error accessing " ++ pathJoin "/home/u" "secret" ++ ": " ++ "Permission denied") ∈
      (enter_directory envStatFail stHome "secret").listing :=
  enter_on_stat_error envStatFail stHome "secret" "Permission denied" rfl

/-- Claim C5 (confirmed): when listing the attempted path raises, the caught
exception becomes the single synthetic entry of the (cleared) listing, no
exception reaches the caller (the navigation function is total on states),
and `current_path`, the label and the breadcrumbs still reflect the attempted
path, so `goUp` remains available. -/
theorem listing_error_inline (env : RemoteEnv) (st : NavState) (p e : String)
    (h : env.listResult p = Except.error e) :
    (jump_to_path env st p).listing = ["⛔ Error: " ++ e] ∧
    (jump_to_path env st p).current_path = p ∧
    (jump_to_path env st p).breadcrumbs = breadcrumbsOf p ∧
    (jump_to_path env st p).selectedPath = st.selectedPath ∧
    (jump_to_path env st p).accepted = st.accepted := by
  unfold jump_to_path load_directory
  simp [h]

/-- Claim C5, witness: navigating to `/root` on an oracle that denies every
listing leaves exactly one synthetic error entry, with path state advanced. -/
theorem listing_error_inline_witness :
    (jump_to_path envListFail stHome "/root").listing =
      ["⛔ Error: " ++ "Permission denied"] ∧
    (jump_to_path envListFail stHome "/root").current_path = "/root" ∧
    (jump_to_path envListFail stHome "/root").breadcrumbs = breadcrumbsOf "/root" ∧
    (jump_to_path envListFail stHome "/root").selectedPath = none ∧
    (jump_to_path envListFail stHome "/root").accepted = false :=
  listing_error_inline envListFail stHome "/root" "Permission denied" rfl

/-- Claim C6 (corrected): `goUp` computes
`dirname(current_path.rstrip("/"))` and is a no-op not only when that parent
equals `currentPath` but also when it is empty (Python truthiness of the
guard `if parent and parent != self.current_path`); otherwise it navigates to
the parent via `load_directory`. -/
theorem go_up_behaviour (env : RemoteEnv) (st : NavState) :
    (dirname (rstripSlash st.current_path) = "" ∨
      dirname (rstripSlash st.current_path) = st.current_path →
      go_up_directory env st = st) ∧
    (dirname (rstripSlash st.current_path) ≠ "" →
      dirname (rstripSlash st.current_path) ≠ st.current_path →
      go_up_directory env st =
        load_directory env { st with current_path := dirname (rstripSlash st.current_path) } ∧
      (go_up_directory env st).current_path = dirname (rstripSlash st.current_path)) := by
  constructor
  · intro h
    unfold go_up_directory
    rcases h with h | h <;> simp [h]
  · intro h1 h2
    unfold go_up_directory
    rw [if_pos ⟨h1, h2⟩]
    exact ⟨rfl, load_directory_current_path env _⟩

/-- Claim C6, witness: from `/a/b/c` the parent is `/a/b` and `goUp` really
navigates there. -/
theorem go_up_behaviour_witness :
    go_up_directory envCrumb stAbc =
      load_directory envCrumb { stAbc with current_path := dirname (rstripSlash "/a/b/c") } ∧
    (go_up_directory envCrumb stAbc).current_path = "/a/b" :=
  (go_up_behaviour envCrumb stAbc).2 (by decide) (by decide)

/-- Claim C6, counterexample to the claim as stated: at the root `"/"`
(reachable by repeated `goUp`), the computed parent is `""`, which differs
from `currentPath`, yet `goUp` is a no-op — the code also blocks on an empty
parent, not only on `parent == currentPath`. -/
theorem go_up_counterexample :
    dirname (rstripSlash "/") = "" ∧
    ("" : String) ≠ "/" ∧
    go_up_directory envCrumb (initState "/") = initState "/" ∧
    (go_up_directory envCrumb (initState "/")).current_path = "/" := by
  refine ⟨rfl, by decide, rfl, rfl⟩

/-- Claim C7 (confirmed): for `currentPath = "/a/b/c"` the breadcrumb buttons
are labelled `a`, `b`, `c` and map, in order, exactly to `/a`, `/a/b`,
`/a/b/c`; clicking the `/a/b` segment (`jump_to_path`) sets `current_path`
to `/a/b` and loads that directory's sorted listing. -/
theorem breadcrumbs_abc :
    (breadcrumbsOf "/a/b/c").map Prod.snd = ["/a", "/a/b", "/a/b/c"] ∧
    (breadcrumbsOf "/a/b/c").map Prod.fst = ["a", "b", "c"] ∧
    (jump_to_path envCrumb stAbc "/a/b").current_path = "/a/b" ∧
    (jump_to_path envCrumb stAbc "/a/b").listing = ["x", "y"] ∧
    (jump_to_path envCrumb stAbc "/a/b").breadcrumbs = breadcrumbsOf "/a/b" := by
  exact ⟨rfl, rfl, rfl, rfl, rfl⟩

/-- Claim C8 (confirmed): a start path of literally `"~"` is replaced, before
the SFTP channel is even opened and before any listing, by the remote
`$HOME` (the `echo $HOME` oracle value), so the first `load_directory` runs
at the resolved absolute home path; the produced state points at
`env.homeDir` with that directory's sorted entries. -/
theorem tilde_resolved_at_open (env : RemoteEnv) (items : List String)
    (hc : env.connectErr = none) (hs : env.sftpErr = none)
    (hl : env.listResult env.homeDir = Except.ok items) :
    openDialog env "~" = Except.ok (load_directory env (initState env.homeDir)) ∧
    (load_directory env (initState env.homeDir)).current_path = env.homeDir ∧
    (load_directory env (initState env.homeDir)).listing = pySorted items ∧
    (load_directory env (initState env.homeDir)).breadcrumbs = breadcrumbsOf env.homeDir := by
  refine ⟨?_, load_directory_current_path env _, ?_, load_directory_breadcrumbs env _⟩
  · unfold openDialog
    rw [hc, hs]
    simp
  · unfold load_directory
    simp [initState, hl]

/-- Claim C8, witness: the spec scenario — home resolves to `/home/u`, whose
listing succeeds while listing the literal `"~"` would fail; the dialog opens
at `/home/u` with its sorted contents, so the first listing targeted the
resolved path and never `"~"`. -/
theorem tilde_resolved_at_open_witness :
    envTilde.listResult "~" = Except.error "No such file or directory" ∧
    (openDialog envTilde "~" = Except.ok (load_directory envTilde (initState "/home/u")) ∧
      (load_directory envTilde (initState "/home/u")).current_path = "/home/u" ∧
      (load_directory envTilde (initState "/home/u")).listing = ["bin", "docs"] ∧
      (load_directory envTilde (initState "/home/u")).breadcrumbs = breadcrumbsOf "/home/u") :=
  ⟨rfl, tilde_resolved_at_open envTilde ["docs", "bin"] rfl rfl rfl⟩

/-- Claim C9 (confirmed): a successful `load_directory` replaces the listing
wholesale (independently of the previous listing) with exactly the queried
entries — a permutation of the oracle's directory contents — in ascending
code-point (case-sensitive) order. -/
theorem listing_sorted (env : RemoteEnv) (st : NavState) (items : List String)
    (h : env.listResult st.current_path = Except.ok items) :
    (load_directory env st).listing = pySorted items ∧
    List.Perm (load_directory env st).listing items ∧
    (load_directory env st).listing.Sorted strLe := by
  haveI ht : IsTotal String strLe := ⟨fun a b => lexLeB_total a.data b.data⟩
  haveI htr : IsTrans String strLe := ⟨fun a b c => lexLeB_trans a.data b.data c.data⟩
  have hl : (load_directory env st).listing = pySorted items := by
    unfold load_directory
    simp [h]
  refine ⟨hl, ?_, ?_⟩
  · rw [hl]; exact List.perm_insertionSort strLe items
  · rw [hl]; exact List.sorted_insertionSort strLe items

/-- Claim C9, witness: the unsorted oracle contents `["b", "Z", "a", "A"]`
come back as `["A", "Z", "a", "b"]` (code-point order, upper case first),
a sorted permutation of the directory contents. -/
theorem listing_sorted_witness :
    (load_directory envSortDemo stHome).listing = ["A", "Z", "a", "b"] ∧
    List.Perm (load_directory envSortDemo stHome).listing ["b", "Z", "a", "A"] ∧
    (load_directory envSortDemo stHome).listing.Sorted strLe := by
  have h := listing_sorted envSortDemo stHome ["b", "Z", "a", "A"] rfl
  exact ⟨h.1, h.2.1, h.2.2⟩

/-- Claim C10 (confirmed, implicit behaviour): after a failed listing the
synthetic `⛔ Error: …` entry sits in the listing like any other name;
double-clicking it joins the error text onto `currentPath`, the `stat` on
that nonsense path fails, and the permissive except branch of
`enter_directory` commits the bogus path as `selectedPath` and accepts
immediately — nothing excludes the synthetic entry from selection. -/
theorem error_entry_selectable (env : RemoteEnv) (st : NavState) (e e2 : String)
    (h1 : env.listResult st.current_path = Except.error e)
    (h2 : env.statResult (pathJoin st.current_path ("⛔ Error: " ++ e)) = Except.error e2) :
    ("⛔ Error: " ++ e) ∈ (load_directory env st).listing ∧
    (enter_directory env (load_directory env st) ("⛔ Error: " ++ e)).selectedPath =
      some (pathJoin st.current_path ("⛔ Error: " ++ e)) ∧
    (enter_directory env (load_directory env st) ("⛔ Error: " ++ e)).accepted = true := by
  have hcp := load_directory_current_path env st
  refine ⟨?_, ?_, ?_⟩
  · unfold load_directory
    simp [h1]
  · unfold enter_directory
    rw [hcp, h2]
  · unfold enter_directory
    rw [hcp, h2]

/-- Claim C10, witness: at `/home/u` with listing denied, the synthetic entry
is `⛔ Error: Permission denied`; double-clicking it commits the bogus path
`/home/u/⛔ Error: Permission denied` and accepts. -/
theorem error_entry_selectable_witness :
    ("⛔ Error: " ++ "Permission denied") ∈ (load_directory envListFail stHome).listing ∧
    (enter_directory envListFail (load_directory envListFail stHome)
        ("⛔ Error: " ++ "Permission denied")).selectedPath =
      some (pathJoin "/home/u" ("⛔ Error: " ++ "Permission denied")) ∧
    (enter_directory envListFail (load_directory envListFail stHome)
        ("⛔ Error: " ++ "Permission denied")).accepted = true :=
  error_entry_selectable envListFail stHome "Permission denied" "Permission denied" rfl rfl
